import Mathlib

/-!
Shallow embedding of `src/_posts/tester.py`, a CLI driver that acquires text
from standard input or from file arguments, invokes an external grammar
checking capability once, and prints the number of matches followed by each
match. The external engine (`language_tool_python.LanguageTool('en-US')` plus
its `check` method) is abstracted as a function from the input text to either
an ordered list of matches or an error; the driver itself is translated
line by line. A run is modelled by its trace of observable events: calls into
the checking capability and lines printed to standard output.
-/

/-- Match records returned by the external checking capability are opaque to
the program: it only ever prints them (`print(match)`), so each is modelled by
its printed textual representation. -/
abbrev Match := String

/-- External checking capability: engine initialization
(`LanguageTool('en-US')`) together with `tool.check(data)`. It either returns
the ordered sequence of matches or raises an error (engine unreachable,
initialization failure, ...), modelled by `Except`. -/
abbrev Checker := String → Except String (List Match)

/-- Observable events of one process run: an invocation of the checking
capability on a text, or a line printed to standard output. -/
inductive Event where
  | call (text : String)
  | out (line : String)
deriving DecidableEq

/-- Lines printed to standard output during a run, in order. -/
def outputLines (tr : List Event) : List String :=
  tr.filterMap fun e => match e with
    | .out s => some s
    | .call _ => none

/-- Texts the checking capability was invoked on during a run, in order. -/
def callLog (tr : List Event) : List String :=
  tr.filterMap fun e => match e with
    | .call s => some s
    | .out _ => none

/-- Embedding of `lint(data)`: initialize the engine and check `data`; if that
raises, the process dies with no output; otherwise print
`Total Mistakes: <len(matches)>` and then each match in order. -/
def lint (check : Checker) (data : String) : List Event :=
  match check data with
  | .error _ => [.call data]
  | .ok ms =>
      .call data :: .out ("Total Mistakes: " ++ toString ms.length)
        :: ms.map .out

/-- Python `str.strip()`: remove leading and trailing whitespace characters.
Implemented directly on the character list so it evaluates by kernel
reduction. -/
def pyStrip (s : String) : String :=
  ⟨((s.data.dropWhile Char.isWhitespace).reverse.dropWhile Char.isWhitespace).reverse⟩

/-- Python `" ".join(...)`: concatenate the strings with a single space
between consecutive elements. -/
def spaceJoin : List String → String
  | [] => ""
  | [s] => s
  | s :: rest => s ++ " " ++ spaceJoin rest

/-- Embedding of `from_input()`: read all of standard input, strip leading and
trailing whitespace (`sys.stdin.read().strip()`), and lint it. -/
def from_input (check : Checker) (stdin : String) : List Event :=
  lint check (pyStrip stdin)

/-- File system model: associates a file name with the sequence of lines that
`fileinput.input` would yield for it, each line given without its terminating
newline (the terminator is whitespace, removed by `line.strip()` anyway). -/
abbrev FileSys := List (String × List String)

/-- Reading every named file in sequence, as `fileinput.input(files)` iterates
them: the concatenation of all lines in file-then-line order, or an error
naming the first missing file (a missing or unreadable path raises before the
assembled text is ever produced). -/
def readAll (fs : FileSys) : List String → Except String (List String)
  | [] => .ok []
  | name :: rest =>
    match fs.lookup name with
    | none => .error name
    | some lines => (readAll fs rest).map (fun more => lines ++ more)

/-- Embedding of `from_files(files)`: iterate all lines of all named files,
strip each line on both ends (`line.strip()`), join with a single space, and
lint the result. If reading raises, `lint` is never reached and the trace is
empty. -/
def from_files (check : Checker) (fs : FileSys) (files : List String) : List Event :=
  match readAll fs files with
  | .error _ => []
  | .ok lines => lint check (spaceJoin (lines.map pyStrip))

/-- One invocation of the program: whether `sys.stdin.isatty()` holds, the
content available on standard input, and `sys.argv[1:]`. -/
structure Invocation where
  isatty : Bool
  stdin : String
  args : List String
deriving DecidableEq

/-- Embedding of the `__main__` block: piped standard input first, then file
arguments (`len(sys.argv) > 1`), else the usage message. -/
def main_run (check : Checker) (fs : FileSys) (inv : Invocation) : List Event :=
  if inv.isatty = false then from_input check inv.stdin
  else if inv.args ≠ [] then from_files check fs inv.args
  else [.out "Please provide input via stdin, or provide files as arguments"]

/-- Strips trailing whitespace only, as in Python `str.rstrip()`. Used by the
spec-side definition `specAssembledText` below, not by the embedding. -/
def pyRStrip (s : String) : String :=
  ⟨(s.data.reverse.dropWhile Char.isWhitespace).reverse⟩

/-- Follows the spec's words for claim C2: the assembled text is the
space-joined concatenation of every line across all files, in file-then-line
order, with per-line TRAILING whitespace stripped. Compared against the text
`from_files` actually passes to the checker. -/
def specAssembledText (fs : FileSys) (files : List String) : Except String String :=
  (readAll fs files).map fun lines => spaceJoin (lines.map pyRStrip)

/-- Concrete checker that reports no matches; used in witnesses. -/
def checkClean : Checker := fun _ => .ok []

/-- Concrete checker that always fails; used in witnesses. -/
def checkDown : Checker := fun _ => .error "engine unreachable"

theorem callLog_lint (check : Checker) (d : String) :
    callLog (lint check d) = [d] := by
  unfold lint callLog
  cases check d <;> simp [List.filterMap_map, Function.comp]

theorem outputLines_lint_ok (check : Checker) (d : String) (ms : List Match)
    (h : check d = .ok ms) :
    outputLines (lint check d)
      = ("Total Mistakes: " ++ toString ms.length) :: ms := by
  unfold lint outputLines
  rw [h]
  simp [List.filterMap_map, Function.comp]
  exact List.filterMap_some ms

theorem outputLines_lint_error (check : Checker) (d : String) (e : String)
    (h : check d = .error e) :
    outputLines (lint check d) = [] := by
  unfold lint outputLines
  rw [h]
  simp

/-- Concrete checker that reports two fixed matches; used in witnesses. -/
def checkTwo : Checker := fun _ => .ok ["m1", "m2"]

/-- C1: whenever the check of an input text returns the list `ms` of matches,
the program prints exactly the line `Total Mistakes: <ms.length>` (base-10)
followed by the matches themselves, in the checker's order, and nothing else;
for `ms = []` this is exactly `Total Mistakes: 0` with no further lines. -/
theorem c1_count_line_then_matches (check : Checker) (data : String)
    (ms : List Match) (h : check data = .ok ms) :
    outputLines (lint check data)
      = ("Total Mistakes: " ++ toString ms.length) :: ms :=
  outputLines_lint_ok check data ms h

theorem c1_count_line_then_matches_witness :
    (checkTwo "x" = .ok ["m1", "m2"] ∧
      outputLines (lint checkTwo "x")
        = ("Total Mistakes: " ++ toString (["m1", "m2"] : List Match).length)
            :: ["m1", "m2"]) ∧
    (checkClean "x" = .ok [] ∧
      outputLines (lint checkClean "x")
        = ("Total Mistakes: " ++ toString ([] : List Match).length) :: []) :=
  ⟨⟨rfl, c1_count_line_then_matches checkTwo "x" ["m1", "m2"] rfl⟩,
   ⟨rfl, c1_count_line_then_matches checkClean "x" [] rfl⟩⟩

/-- C2 as stated is false: `line.strip()` removes LEADING whitespace as well
as trailing, so on a file whose line starts with spaces the text handed to the
checker differs from the spec's trailing-stripped assembly. -/
theorem c2_counterexample :
    callLog (from_files checkClean [("f.txt", ["  a"])] ["f.txt"]) = ["a"] ∧
    specAssembledText [("f.txt", ["  a"])] ["f.txt"] = .ok "  a" ∧
    ("a" : String) ≠ "  a" :=
  ⟨by decide, rfl, by decide⟩

/-- C2 amended: with one or more file arguments (and interactive stdin), the
text passed to the checker is the space-joined concatenation of every line
across all named files, in file-then-line order, with per-line LEADING AND
TRAILING whitespace stripped. -/
theorem c2_space_joined_stripped_lines (check : Checker) (fs : FileSys)
    (files : List String) (lines : List String)
    (h : readAll fs files = .ok lines) :
    callLog (from_files check fs files)
      = [spaceJoin (lines.map pyStrip)] := by
  unfold from_files
  rw [h]
  exact callLog_lint check _

theorem c2_space_joined_stripped_lines_witness :
    readAll [("f.txt", ["  a ", "b"]), ("g.txt", ["c  "])] ["f.txt", "g.txt"]
        = .ok ["  a ", "b", "c  "] ∧
    callLog (from_files checkClean
        [("f.txt", ["  a ", "b"]), ("g.txt", ["c  "])] ["f.txt", "g.txt"])
      = [spaceJoin (["  a ", "b", "c  "].map pyStrip)] ∧
    spaceJoin (["  a ", "b", "c  "].map pyStrip) = "a b c" :=
  ⟨rfl,
   c2_space_joined_stripped_lines checkClean
     [("f.txt", ["  a ", "b"]), ("g.txt", ["c  "])] ["f.txt", "g.txt"]
     ["  a ", "b", "c  "] rfl,
   by decide⟩

/-- C3: when stdin is piped (not a tty), the run is exactly the stdin-reading
run, and the file system is never consulted: the trace is the same for every
file system, whatever file arguments were supplied. -/
theorem c3_piped_ignores_file_args (check : Checker) (fs fs' : FileSys)
    (inv : Invocation) (h : inv.isatty = false) :
    main_run check fs inv = from_input check inv.stdin ∧
    main_run check fs inv = main_run check fs' inv := by
  unfold main_run
  rw [h]
  simp

theorem c3_piped_ignores_file_args_witness :
    (Invocation.mk false "hi" ["ghost.txt"]).isatty = false ∧
    (main_run checkClean [] (Invocation.mk false "hi" ["ghost.txt"])
        = from_input checkClean "hi" ∧
      main_run checkClean [] (Invocation.mk false "hi" ["ghost.txt"])
        = main_run checkClean [("ghost.txt", ["spooky"])]
            (Invocation.mk false "hi" ["ghost.txt"])) :=
  ⟨rfl, c3_piped_ignores_file_args checkClean [] [("ghost.txt", ["spooky"])]
    (Invocation.mk false "hi" ["ghost.txt"]) rfl⟩

/-- C4: with piped stdin, the checker is invoked exactly once, on exactly the
whole standard input with leading and trailing whitespace stripped. -/
theorem c4_piped_checked_once_stripped (check : Checker) (fs : FileSys)
    (inv : Invocation) (h : inv.isatty = false) :
    callLog (main_run check fs inv) = [pyStrip inv.stdin] := by
  unfold main_run from_input
  rw [h]
  simpa using callLog_lint check (pyStrip inv.stdin)

theorem c4_piped_checked_once_stripped_witness :
    (Invocation.mk false " Their going too the store.\n" []).isatty = false ∧
    callLog (main_run checkClean []
        (Invocation.mk false " Their going too the store.\n" []))
      = [pyStrip " Their going too the store.\n"] ∧
    pyStrip " Their going too the store.\n" = "Their going too the store." :=
  ⟨rfl,
   c4_piped_checked_once_stripped checkClean []
     (Invocation.mk false " Their going too the store.\n" []) rfl,
   by decide⟩

/-- C5: with interactive stdin and no file arguments, the run prints exactly
the usage message and the checking capability is never invoked. -/
theorem c5_usage_message_no_check (check : Checker) (fs : FileSys)
    (inv : Invocation) (h1 : inv.isatty = true) (h2 : inv.args = []) :
    main_run check fs inv
      = [.out "Please provide input via stdin, or provide files as arguments"] ∧
    callLog (main_run check fs inv) = [] := by
  unfold main_run
  rw [h1, h2]
  exact ⟨by simp, by simp [callLog]⟩

theorem c5_usage_message_no_check_witness :
    (Invocation.mk true "" []).isatty = true ∧
    (Invocation.mk true "" []).args = [] ∧
    (main_run checkClean [] (Invocation.mk true "" [])
        = [.out "Please provide input via stdin, or provide files as arguments"] ∧
      callLog (main_run checkClean [] (Invocation.mk true "" [])) = []) :=
  ⟨rfl, rfl, c5_usage_message_no_check checkClean [] (Invocation.mk true "" []) rfl rfl⟩

/-- C6: in any run whose single checker invocation fails, nothing is printed:
no count line and no match appears in the output. -/
theorem c6_checker_failure_prints_nothing (check : Checker) (fs : FileSys)
    (inv : Invocation) (t e : String)
    (hc : callLog (main_run check fs inv) = [t])
    (he : check t = .error e) :
    outputLines (main_run check fs inv) = [] := by
  unfold main_run at hc ⊢
  by_cases hA : inv.isatty = false
  · rw [if_pos hA] at hc ⊢
    unfold from_input at hc ⊢
    rw [callLog_lint] at hc
    have ht : pyStrip inv.stdin = t := by simpa using hc
    exact outputLines_lint_error check _ e (by rw [ht]; exact he)
  · rw [if_neg hA] at hc ⊢
    by_cases hB : inv.args ≠ []
    · rw [if_pos hB] at hc ⊢
      unfold from_files at hc ⊢
      cases hR : readAll fs inv.args with
      | error e0 =>
          exact rfl
      | ok lines =>
          rw [hR] at hc
          have hc2 : callLog (lint check (spaceJoin (lines.map pyStrip))) = [t] := hc
          rw [callLog_lint] at hc2
          have ht : spaceJoin (lines.map pyStrip) = t := by simpa using hc2
          exact outputLines_lint_error check _ e (by rw [ht]; exact he)
    · rw [if_neg hB] at hc
      simp [callLog] at hc

theorem c6_checker_failure_prints_nothing_witness :
    callLog (main_run checkDown [] (Invocation.mk false "boom" [])) = ["boom"] ∧
    checkDown "boom" = .error "engine unreachable" ∧
    outputLines (main_run checkDown [] (Invocation.mk false "boom" [])) = [] :=
  have hc : callLog (main_run checkDown [] (Invocation.mk false "boom" []))
      = ["boom"] := by decide
  ⟨hc, rfl,
   c6_checker_failure_prints_nothing checkDown [] (Invocation.mk false "boom" [])
     "boom" "engine unreachable" hc rfl⟩

/-- C7 as stated is false: the usage run (interactive stdin, no file
arguments) is a process run in which the checking capability is invoked zero
times, not exactly once. -/
theorem c7_counterexample :
    callLog (main_run checkClean [] (Invocation.mk true "" [])) = [] ∧
    (callLog (main_run checkClean [] (Invocation.mk true "" []))).length ≠ 1 := by
  exact ⟨by decide, by decide⟩

/-- C7 amended: at most one checker invocation occurs per process run, on at
most one assembled text blob; no execution path calls the checker twice or on
two different strings (the usage path and a failed file read perform zero
invocations). -/
theorem c7_at_most_one_check (check : Checker) (fs : FileSys)
    (inv : Invocation) :
    (callLog (main_run check fs inv)).length ≤ 1 := by
  unfold main_run from_input from_files
  by_cases hA : inv.isatty = false
  · rw [if_pos hA, callLog_lint]
    simp
  · rw [if_neg hA]
    by_cases hB : inv.args ≠ []
    · rw [if_pos hB]
      cases hR : readAll fs inv.args with
      | error e0 => simp [callLog]
      | ok lines =>
          rw [callLog_lint]
          simp
    · rw [if_neg hB]
      simp [callLog]

/-- C8: the trace of a run is a function of the invocation data (tty status,
stdin content, arguments), the file system, and the checker alone: two
invocations agreeing on all fields produce identical output. -/
theorem c8_deterministic_output (check : Checker) (fs : FileSys)
    (inv1 inv2 : Invocation) (h1 : inv1.isatty = inv2.isatty)
    (h2 : inv1.stdin = inv2.stdin) (h3 : inv1.args = inv2.args) :
    main_run check fs inv1 = main_run check fs inv2 := by
  cases inv1
  cases inv2
  simp only at h1 h2 h3
  subst h1
  subst h2
  subst h3
  rfl

theorem c8_deterministic_output_witness :
    (Invocation.mk false "same" []).isatty = (Invocation.mk false "same" []).isatty ∧
    (Invocation.mk false "same" []).stdin = (Invocation.mk false "same" []).stdin ∧
    (Invocation.mk false "same" []).args = (Invocation.mk false "same" []).args ∧
    main_run checkTwo [] (Invocation.mk false "same" [])
      = main_run checkTwo [] (Invocation.mk false "same" []) :=
  ⟨rfl, rfl, rfl,
   c8_deterministic_output checkTwo [] (Invocation.mk false "same" [])
     (Invocation.mk false "same" []) rfl rfl rfl⟩

/-- C9: with piped stdin that is empty or all whitespace, the usage branch is
not taken: the run is exactly the lint of the empty string, and the checker is
invoked exactly once, on `""`. -/
theorem c9_empty_piped_still_checked (check : Checker) (fs : FileSys)
    (inv : Invocation) (h1 : inv.isatty = false) (h2 : pyStrip inv.stdin = "") :
    main_run check fs inv = lint check "" ∧
    callLog (main_run check fs inv) = [""] := by
  unfold main_run from_input
  rw [h1]
  simp only [if_pos rfl]
  rw [h2]
  exact ⟨rfl, callLog_lint check ""⟩

theorem c9_empty_piped_still_checked_witness :
    (Invocation.mk false " \n\t " []).isatty = false ∧
    pyStrip " \n\t " = "" ∧
    (main_run checkClean [] (Invocation.mk false " \n\t " [])
        = lint checkClean "" ∧
      callLog (main_run checkClean [] (Invocation.mk false " \n\t " [])) = [""]) :=
  ⟨rfl, by decide,
   c9_empty_piped_still_checked checkClean [] (Invocation.mk false " \n\t " [])
     rfl (by decide)⟩

/-- C10: in file-argument mode the whole text is assembled before `lint` runs,
so when some named file cannot be read the run has an empty trace: the checker
is never invoked and nothing is printed. -/
theorem c10_read_failure_no_call_no_output (check : Checker) (fs : FileSys)
    (inv : Invocation) (e : String)
    (h1 : inv.isatty = true) (h2 : readAll fs inv.args = .error e) :
    main_run check fs inv = [] ∧
    callLog (main_run check fs inv) = [] ∧
    outputLines (main_run check fs inv) = [] := by
  have hargs : inv.args ≠ [] := by
    intro hnil
    rw [hnil] at h2
    simp [readAll] at h2
  unfold main_run from_files
  rw [h1]
  simp only [Bool.true_eq_false, if_false, if_pos hargs]
  rw [h2]
  exact ⟨rfl, rfl, rfl⟩

theorem c10_read_failure_no_call_no_output_witness :
    (Invocation.mk true "" ["nofile.txt"]).isatty = true ∧
    readAll [] (Invocation.mk true "" ["nofile.txt"]).args = .error "nofile.txt" ∧
    (main_run checkClean [] (Invocation.mk true "" ["nofile.txt"]) = [] ∧
      callLog (main_run checkClean [] (Invocation.mk true "" ["nofile.txt"])) = [] ∧
      outputLines (main_run checkClean [] (Invocation.mk true "" ["nofile.txt"])) = []) :=
  ⟨rfl, rfl,
   c10_read_failure_no_call_no_output checkClean []
     (Invocation.mk true "" ["nofile.txt"]) "nofile.txt" rfl rfl⟩
